import Mathlib

/-!
Shallow embedding of the task-management REST API backend
(Flask + raw-SQL models) used to check the natural-language
specification against the code.

Source layout mirrored here:
  app/utils/validators.py      : sanitize_input, validate_email, validate_password
  app/middleware/auth_middleware.py : generate_token, decode_token, token_required
  app/models/task_model.py     : TaskModel.* (SQL modelled as list operations)
  app/models/user_model.py     : UserModel.*
  app/routes/task_routes.py    : create_task, get_tasks, get_task, update_task, delete_task
  app/routes/auth_routes.py    : register
-/

namespace TaskApi

/-! ## validators.py : sanitize_input -/

/-- Per-character HTML escaping, the character map of Python html.escape
with quote=True: amp, lt, gt, double quote, single quote. -/
def escapeChar (c : Char) : List Char :=
  if c = '&' then "&amp;".data
  else if c = '<' then "&lt;".data
  else if c = '>' then "&gt;".data
  else if c = '"' then "&quot;".data
  else if c = Char.ofNat 39 then "&#x27;".data
  else [c]

/-- html.escape over a character list. -/
def escapeList : List Char → List Char
  | [] => []
  | c :: cs => escapeChar c ++ escapeList cs

/-- Whitespace for Python str.strip(): the common ASCII whitespace
characters, including vertical tab and form feed. -/
def pyIsSpace (c : Char) : Bool :=
  c.isWhitespace || c = Char.ofNat 11 || c = Char.ofNat 12

/-- Python str.strip() on a character list: drop leading and trailing
whitespace. -/
def pyStrip (l : List Char) : List Char :=
  ((l.dropWhile pyIsSpace).reverse.dropWhile pyIsSpace).reverse

/-- sanitize_input (validators.py lines 63 to 85) on a string value:
strip leading and trailing whitespace, then HTML-escape.
The None branch of the Python function is handled at call sites,
which pass a string default to dict.get. -/
def sanitize_input (s : String) : String :=
  String.mk (escapeList (pyStrip s.data))

/-- valid_statuses list from task_routes.py (create_task and update_task). -/
def valid_statuses : List String :=
  ["pending", "in_progress", "completed", "cancelled"]

/-! ## Data model: tasks table and the database state -/

/-- A row of the tasks table. -/
structure Task where
  id : Nat
  title : String
  description : String
  status : String
  user_id : Nat
  created_at : Nat
deriving DecidableEq, Repr

/-- The tasks table plus the autoincrement counter and a clock used
for created_at values. -/
structure Db where
  tasks : List Task
  next_id : Nat
  now : Nat
deriving DecidableEq, Repr

/-- The identity bound to a request by the authentication middleware
(current_user dict: user_id and role). -/
structure Claim where
  user_id : Nat
  role : String
deriving DecidableEq, Repr

/-! ## task_model.py : TaskModel -/

/-- TaskModel.find_by_id: SELECT by primary key. -/
def TaskModel.find_by_id (db : Db) (task_id : Nat) : Option Task :=
  db.tasks.find? (fun t => t.id = task_id)

/-- TaskModel.create: INSERT returning lastrowid. -/
def TaskModel.create (db : Db) (title description status : String) (user_id : Nat) :
    Nat × Db :=
  let t : Task := ⟨db.next_id, title, description, status, user_id, db.now⟩
  (db.next_id, ⟨db.tasks ++ [t], db.next_id + 1, db.now + 1⟩)

/-- TaskModel.update as called from update_task: all three columns are set
on the row with the given id. -/
def TaskModel.update (db : Db) (task_id : Nat) (title description status : String) :
    Db :=
  let upd := fun (t : Task) =>
    if t.id = task_id then
      Task.mk t.id title description status t.user_id t.created_at
    else t
  ⟨db.tasks.map upd, db.next_id, db.now⟩

/-- TaskModel.delete: DELETE by primary key. -/
def TaskModel.delete (db : Db) (task_id : Nat) : Db :=
  ⟨db.tasks.filter (fun t => t.id ≠ task_id), db.next_id, db.now⟩

/-- Truthiness of the optional SQL status filter: None and the empty
string disable the filter (Python if status). -/
def statusMatch (filter : Option String) (t : Task) : Bool :=
  match filter with
  | none => true
  | some s => if s = "" then true else t.status = s

/-- Insert a task into a list sorted by created_at in descending order. -/
def insertDesc (t : Task) : List Task → List Task
  | [] => [t]
  | u :: us =>
      if u.created_at ≤ t.created_at then t :: u :: us
      else u :: insertDesc t us

/-- ORDER BY created_at DESC. -/
def sortByCreatedDesc : List Task → List Task
  | [] => []
  | t :: ts => insertDesc t (sortByCreatedDesc ts)

/-- TaskModel.find_by_user: rows of one user, optionally filtered by
status, ORDER BY created_at DESC, LIMIT limit OFFSET offset. -/
def TaskModel.find_by_user (db : Db) (user_id : Nat) (status : Option String)
    (limit offset : Nat) : List Task :=
  let rows := db.tasks.filter (fun t => t.user_id = user_id && statusMatch status t)
  ((sortByCreatedDesc rows).drop offset).take limit

/-- TaskModel.count_by_user: COUNT of one user's rows under the same
optional status filter. -/
def TaskModel.count_by_user (db : Db) (user_id : Nat) (status : Option String) : Nat :=
  (db.tasks.filter (fun t => t.user_id = user_id && statusMatch status t)).length

/-! ## task_routes.py : request bodies and responses -/

/-- JSON body of POST and PUT task requests: any subset of the three
fields may be present (none models an absent key). -/
structure TaskBody where
  title : Option String
  description : Option String
  status : Option String
deriving DecidableEq, Repr

/-- The part of the JSON response envelope the claims are about:
HTTP status code, the error message of error_response, and the
task_id datum of a successful create. -/
structure Resp where
  code : Nat
  error : Option String
  task_id : Option Nat
deriving DecidableEq, Repr

/-- Response helper matching error_response(message, status_code). -/
def errResp (msg : String) (code : Nat) : Resp :=
  ⟨code, some msg, none⟩

/-- create_task (task_routes.py lines 16 to 79).  The request body is
none when request.get_json() is falsy.  Returns the response and the
database state after the request. -/
def create_task (current_user : Claim) (body : Option TaskBody) (db : Db) :
    Resp × Db :=
  match body with
  | none => (errResp "Request body is required" 400, db)
  | some data =>
    let title := sanitize_input (data.title.getD "")
    let description := sanitize_input (data.description.getD "")
    let status := sanitize_input (data.status.getD "pending")
    if title = "" then
      (errResp "Task title is required" 400, db)
    else if title.length > 200 then
      (errResp "Title must be less than 200 characters" 400, db)
    else if status ∉ valid_statuses then
      (errResp "Invalid status. Must be one of: pending, in_progress, completed, cancelled" 400, db)
    else
      let r := TaskModel.create db title description status current_user.user_id
      (⟨201, none, some r.fst⟩, r.snd)

/-- update_task (task_routes.py lines 208 to 287): find, ownership check
(no admin bypass), defaulting of absent fields to the stored row through
sanitize_input, validation, then TaskModel.update. -/
def update_task (current_user : Claim) (task_id : Nat) (body : Option TaskBody)
    (db : Db) : Resp × Db :=
  match TaskModel.find_by_id db task_id with
  | none => (errResp "Task not found" 404, db)
  | some task =>
    if task.user_id ≠ current_user.user_id then
      (errResp "You do not have permission to update this task" 403, db)
    else
      match body with
      | none => (errResp "Request body is required" 400, db)
      | some data =>
        let title := sanitize_input (data.title.getD task.title)
        let description := sanitize_input (data.description.getD task.description)
        let status := sanitize_input (data.status.getD task.status)
        if title = "" then
          (errResp "Task title cannot be empty" 400, db)
        else if title.length > 200 then
          (errResp "Title must be less than 200 characters" 400, db)
        else if status ∉ valid_statuses then
          (errResp "Invalid status. Must be one of: pending, in_progress, completed, cancelled" 400, db)
        else
          (⟨200, none, none⟩, TaskModel.update db task_id title description status)

/-- delete_task (task_routes.py lines 290 to 326): find, ownership check
with admin bypass, then TaskModel.delete. -/
def delete_task (current_user : Claim) (task_id : Nat) (db : Db) : Resp × Db :=
  match TaskModel.find_by_id db task_id with
  | none => (errResp "Task not found" 404, db)
  | some task =>
    if task.user_id ≠ current_user.user_id ∧ current_user.role ≠ "admin" then
      (errResp "You do not have permission to delete this task" 403, db)
    else
      (⟨200, none, none⟩, TaskModel.delete db task_id)

/-- get_task (task_routes.py lines 166 to 205): find, then ownership
check with admin bypass; reads do not change the database. -/
def get_task (current_user : Claim) (task_id : Nat) (db : Db) : Resp :=
  match TaskModel.find_by_id db task_id with
  | none => errResp "Task not found" 404
  | some task =>
    if task.user_id ≠ current_user.user_id ∧ current_user.role ≠ "admin" then
      errResp "You do not have permission to view this task" 403
    else
      ⟨200, none, none⟩

/-- Response of the task-list endpoint: the returned rows and the
pagination object. -/
structure ListResp where
  tasks : List Task
  total : Nat
  page : Nat
  limit : Nat
  pages : Nat
deriving DecidableEq, Repr

/-- get_tasks (task_routes.py lines 82 to 163), non-admin branch only
reachable in this model when show_all is false or role is not admin.
page0 and limit0 are the raw integer query parameters; the clamps of
lines 109 to 112 are applied first. -/
def get_tasks (current_user : Claim) (show_all : Bool)
    (status_filter : Option String) (page0 limit0 : Int) (db : Db) : ListResp :=
  let page : Int := if page0 < 1 then 1 else page0
  let limit : Int := if limit0 < 1 ∨ limit0 > 100 then 10 else limit0
  let p : Nat := page.toNat
  let l : Nat := limit.toNat
  let offset : Nat := (p - 1) * l
  if show_all ∧ current_user.role = "admin" then
    -- admin all-tasks branch: TaskModel.find_all / count_all
    let rows := db.tasks.filter (statusMatch status_filter)
    let tasks := ((sortByCreatedDesc rows).drop offset).take l
    let total := rows.length
    ⟨tasks, total, p, l, (total + l - 1) / l⟩
  else
    let tasks := TaskModel.find_by_user db current_user.user_id status_filter l offset
    let total := TaskModel.count_by_user db current_user.user_id status_filter
    ⟨tasks, total, p, l, (total + l - 1) / l⟩

/-! ## auth_middleware.py : token service -/

/-- The JWT claim set built by generate_token: user_id, role, iat, exp.
Times are integer seconds. -/
structure Payload where
  user_id : Nat
  role : String
  iat : Nat
  exp : Nat
deriving DecidableEq, Repr

/-- A bearer token as seen by the server: either a well-formed token
signed with some secret, or an undecodable string. -/
inductive Token where
  | signed (payload : Payload) (secret : Nat)
  | malformed (raw : String)
deriving DecidableEq, Repr

/-- Outcome of the underlying JWT library decode: success, the
ExpiredSignatureError exception, or the InvalidTokenError exception
(malformed token or wrong signature). -/
inductive JwtResult where
  | ok (payload : Payload)
  | expired
  | invalid
deriving DecidableEq, Repr

/-- jwt.decode with HS256 and the server secret, at current time now:
the signature is checked first, then the exp claim (expired when
exp is not in the future). -/
def jwt_decode (secret now : Nat) : Token → JwtResult
  | Token.signed p s =>
      if s ≠ secret then JwtResult.invalid
      else if p.exp ≤ now then JwtResult.expired
      else JwtResult.ok p
  | Token.malformed _ => JwtResult.invalid

/-- generate_token (auth_middleware.py lines 13 to 36): claim set with
iat = now and exp = now + expiry_hours (in seconds), signed with the
configured secret. -/
def generate_token (secret now expiry_hours : Nat) (user_id : Nat) (role : String) :
    Token :=
  Token.signed ⟨user_id, role, now, now + expiry_hours * 3600⟩ secret

/-- decode_token (auth_middleware.py lines 39 to 59): both the expired
and the invalid exception branches return None; only the log message
differs between them. -/
def decode_token (secret now : Nat) (t : Token) : Option Payload :=
  match jwt_decode secret now t with
  | JwtResult.ok p => some p
  | JwtResult.expired => none
  | JwtResult.invalid => none

/-! ## auth_middleware.py : token_required decorator -/

/-- Python str.split() on a character list: split on runs of
whitespace, discarding empty chunks.  The first argument accumulates
the current chunk in reverse. -/
def splitWsAux : List Char → List Char → List (List Char)
  | acc, [] => if acc.isEmpty then [] else [acc.reverse]
  | acc, c :: cs =>
      if c.isWhitespace then
        if acc.isEmpty then splitWsAux [] cs
        else acc.reverse :: splitWsAux [] cs
      else splitWsAux (c :: acc) cs

/-- Python str.split() with no arguments. -/
def splitWs (s : String) : List String :=
  (splitWsAux [] s.data).map String.mk

/-- Python str.lower() restricted to ASCII case mapping. -/
def lowerStr (s : String) : String :=
  String.mk (s.data.map Char.toLower)

/-- Bearer-token extraction of token_required (auth_middleware.py lines
79 to 89): the header must be truthy and split into exactly two parts
whose first part lowercases to bearer. -/
def extractToken (auth_header : Option String) : Option String :=
  match auth_header with
  | none => none
  | some h =>
      if h = "" then none
      else
        match splitWs h with
        | [p0, p1] => if lowerStr p0 = "bearer" then some p1 else none
        | _ => none

/-- Response type of a wrapped route handler: status code plus the
error message of the envelope, if any. -/
structure HResp where
  code : Nat
  error : Option String
deriving DecidableEq, Repr

/-- token_required (auth_middleware.py lines 62 to 106), parameterized
by the token verifier (decode_token applied to the server secret and
clock) and the wrapped handler, which receives the user_id and role of
the decoded payload. -/
def token_required (decode : String → Option Payload)
    (handler : Nat → String → HResp) (auth_header : Option String) : HResp :=
  match extractToken auth_header with
  | none => ⟨401, some "Authentication token is required"⟩
  | some t =>
      match decode t with
      | none => ⟨401, some "Invalid or expired token"⟩
      | some payload => handler payload.user_id payload.role

/-! ## validators.py : validate_email, validate_password -/

/-- Character class of the local part of the email pattern. -/
def emailLocalChar (c : Char) : Bool :=
  c.isAlphanum || c = Char.ofNat 46 || c = Char.ofNat 95 ||
    c = Char.ofNat 37 || c = Char.ofNat 43 || c = Char.ofNat 45

/-- Character class of the domain part of the email pattern. -/
def emailDomainChar (c : Char) : Bool :=
  c.isAlphanum || c = Char.ofNat 46 || c = Char.ofNat 45

/-- Split a character list at its first occurrence of sep; none when
sep does not occur. -/
def splitFirst (sep : Char) : List Char → Option (List Char × List Char)
  | [] => none
  | c :: cs =>
      if c = sep then some ([], cs)
      else
        match splitFirst sep cs with
        | none => none
        | some r => some (c :: r.fst, r.snd)

/-- Split a character list at its last occurrence of sep. -/
def splitLast (sep : Char) (l : List Char) : Option (List Char × List Char) :=
  match splitFirst sep l.reverse with
  | none => none
  | some r => some (r.snd.reverse, r.fst.reverse)

/-- validate_email (validators.py lines 10 to 26): the regex
anchored-match of a nonempty local part over its class, an at sign, a
nonempty domain over its class ending in a dot followed by at least two
letters.  A final newline is tolerated because a dollar anchor matches
before a trailing newline in Python. -/
def validate_email (email : String) : Bool :=
  if email = "" then false
  else
    let cs :=
      match email.data.reverse with
      | c :: rest => if c = Char.ofNat 10 then rest.reverse else email.data
      | [] => email.data
    match splitFirst (Char.ofNat 64) cs with
    | none => false
    | some lr =>
        let localPart := lr.fst
        let domain := lr.snd
        (!localPart.isEmpty) && localPart.all emailLocalChar &&
          (match splitLast (Char.ofNat 46) domain with
           | none => false
           | some pq =>
               (!pq.fst.isEmpty) && pq.fst.all emailDomainChar &&
                 pq.snd.length ≥ 2 && pq.snd.all Char.isAlpha)

/-- validate_password (validators.py lines 29 to 60): at least eight
characters with an uppercase letter, a lowercase letter, and a digit;
returns the validity flag and the message. -/
def validate_password (password : String) : Bool × String :=
  if password = "" then (false, "Password is required")
  else if password.length < 8 then
    (false, "Password must be at least 8 characters long")
  else if !(password.data.any Char.isUpper) then
    (false, "Password must contain at least one uppercase letter")
  else if !(password.data.any Char.isLower) then
    (false, "Password must contain at least one lowercase letter")
  else if !(password.data.any Char.isDigit) then
    (false, "Password must contain at least one digit")
  else (true, "Password is valid")

/-! ## user_model.py and auth_routes.py : registration -/

/-- A row of the users table. -/
structure User where
  id : Nat
  email : String
  password_hash : String
  name : String
  role : String
  created_at : Nat
deriving DecidableEq, Repr

/-- The users table plus the autoincrement counter and a clock. -/
structure UserDb where
  users : List User
  next_id : Nat
  now : Nat
deriving DecidableEq, Repr

/-- UserModel.find_by_email: SELECT by email. -/
def UserModel.find_by_email (db : UserDb) (email : String) : Option User :=
  db.users.find? (fun u => u.email = email)

/-- UserModel.create: INSERT returning lastrowid. -/
def UserModel.create (db : UserDb) (email password_hash name role : String) :
    Nat × UserDb :=
  let u : User := ⟨db.next_id, email, password_hash, name, role, db.now⟩
  (db.next_id, ⟨db.users ++ [u], db.next_id + 1, db.now + 1⟩)

/-- JSON body of POST /register. -/
structure RegisterBody where
  email : Option String
  password : Option String
  name : Option String
  role : Option String
deriving DecidableEq, Repr

/-- Response of register: code, error message, and the user_id datum of
a successful creation. -/
structure RegResp where
  code : Nat
  error : Option String
  user_id : Option Nat
deriving DecidableEq, Repr

/-- register (auth_routes.py lines 17 to 90), parameterized by the
password hashing function (bcrypt is salted and non-deterministic, so
it is a parameter of the model): sanitize the fields, validate presence
and formats, silently coerce an unrecognized role to user, reject a
duplicate email, then create the user. -/
def register (hashFn : String → String) (body : Option RegisterBody)
    (db : UserDb) : RegResp × UserDb :=
  match body with
  | none => (⟨400, some "Request body is required", none⟩, db)
  | some data =>
    let email := sanitize_input (data.email.getD "")
    let password := data.password.getD ""
    let name := sanitize_input (data.name.getD "")
    let role0 := sanitize_input (data.role.getD "user")
    if email = "" ∨ password = "" ∨ name = "" then
      (⟨400, some "Email, password, and name are required", none⟩, db)
    else if !(validate_email email) then
      (⟨400, some "Invalid email format", none⟩, db)
    else if !(validate_password password).fst then
      (⟨400, some (validate_password password).snd, none⟩, db)
    else
      let role := if role0 ∉ ["user", "admin"] then "user" else role0
      match UserModel.find_by_email db email with
      | some _ => (⟨409, some "Email already registered", none⟩, db)
      | none =>
          let r := UserModel.create db email (hashFn password) name role
          (⟨201, none, some r.fst⟩, r.snd)

/-! ## Theorems about the embedded handlers -/

/-- C1: ownership and role policy on task mutation.  For every stored
task and authenticated caller, PUT returns 403 whenever the caller is
not the owner, whatever the caller's role (so also for admin); DELETE
returns 200 for the owner or an admin and 403 for anyone else. -/
theorem put_delete_ownership_policy (db : Db) (task_id : Nat) (task : Task)
    (caller : Claim) (body : Option TaskBody)
    (hfind : TaskModel.find_by_id db task_id = some task) :
    (task.user_id ≠ caller.user_id →
       (update_task caller task_id body db).fst.code = 403)
    ∧ ((task.user_id = caller.user_id ∨ caller.role = "admin") →
       (delete_task caller task_id db).fst.code = 200)
    ∧ ((task.user_id ≠ caller.user_id ∧ caller.role ≠ "admin") →
       (delete_task caller task_id db).fst.code = 403) := by
  refine ⟨?_, ?_, ?_⟩
  · intro h
    simp [update_task, hfind, h, errResp]
  · intro h
    have hc : ¬ (task.user_id ≠ caller.user_id ∧ caller.role ≠ "admin") := by
      rcases h with h | h
      · intro hx; exact hx.1 h
      · intro hx; exact hx.2 h
    simp [delete_task, hfind, hc, errResp]
  · intro h
    simp [delete_task, hfind, h, errResp]

/-- Witness for C1: a task owned by user 7; an admin caller with
user_id 8 gets 403 on update and 200 on delete, and user 9 gets 403
on delete. -/
theorem put_delete_ownership_policy_witness :
    (update_task ⟨8, "admin"⟩ 1 none ⟨[⟨1, "T", "", "pending", 7, 0⟩], 2, 0⟩).fst.code = 403
    ∧ (delete_task ⟨8, "admin"⟩ 1 ⟨[⟨1, "T", "", "pending", 7, 0⟩], 2, 0⟩).fst.code = 200
    ∧ (delete_task ⟨9, "user"⟩ 1 ⟨[⟨1, "T", "", "pending", 7, 0⟩], 2, 0⟩).fst.code = 403 := by
  refine ⟨?_, ?_, ?_⟩
  · exact (put_delete_ownership_policy ⟨[⟨1, "T", "", "pending", 7, 0⟩], 2, 0⟩ 1
      ⟨1, "T", "", "pending", 7, 0⟩ ⟨8, "admin"⟩ none (by decide)).1 (by decide)
  · exact (put_delete_ownership_policy ⟨[⟨1, "T", "", "pending", 7, 0⟩], 2, 0⟩ 1
      ⟨1, "T", "", "pending", 7, 0⟩ ⟨8, "admin"⟩ none (by decide)).2.1 (Or.inr rfl)
  · exact (put_delete_ownership_policy ⟨[⟨1, "T", "", "pending", 7, 0⟩], 2, 0⟩ 1
      ⟨1, "T", "", "pending", 7, 0⟩ ⟨9, "user"⟩ none (by decide)).2.2 (by decide)

/-- C2: token round trip.  Verifying a token issued for (u, r) before
the expiry instant succeeds and reproduces user_id u and role r; from
the expiry instant on, the JWT layer reports the Expired outcome and
decode_token fails. -/
theorem token_roundtrip (secret now hours u t : Nat) (r : String) :
    (t < now + hours * 3600 →
       ∃ p, decode_token secret t (generate_token secret now hours u r) = some p
         ∧ p.user_id = u ∧ p.role = r)
    ∧ (now + hours * 3600 ≤ t →
       jwt_decode secret t (generate_token secret now hours u r) = JwtResult.expired
       ∧ decode_token secret t (generate_token secret now hours u r) = none) := by
  constructor
  · intro h
    refine ⟨⟨u, r, now, now + hours * 3600⟩, ?_, rfl, rfl⟩
    have h' : ¬ (now + hours * 3600 ≤ t) := Nat.not_le.mpr h
    simp [decode_token, jwt_decode, generate_token, h']
  · intro h
    simp [decode_token, jwt_decode, generate_token, h]

/-- Witness for C2: secret 5, issued at 0 with a 24-hour TTL for user
42 with role user; verification at time 1000 succeeds and at the
expiry time 86400 fails. -/
theorem token_roundtrip_witness :
    (∃ p, decode_token 5 1000 (generate_token 5 0 24 42 "user") = some p
       ∧ p.user_id = 42 ∧ p.role = "user")
    ∧ decode_token 5 86400 (generate_token 5 0 24 42 "user") = none := by
  constructor
  · exact (token_roundtrip 5 0 24 42 1000 "user").1 (by decide)
  · exact ((token_roundtrip 5 0 24 42 86400 "user").2 (by decide)).2

/-- C3 counterexample: an expired token and a malformed token on which
decode_token returns the same value (None in both cases), so the value
returned to the caller does not distinguish the Expired outcome from
the Malformed outcome. -/
theorem decode_collapse_counterexample :
    jwt_decode 5 90000 (generate_token 5 0 24 1 "user") = JwtResult.expired
    ∧ jwt_decode 5 90000 (Token.malformed "xx") = JwtResult.invalid
    ∧ decode_token 5 90000 (generate_token 5 0 24 1 "user")
        = decode_token 5 90000 (Token.malformed "xx") := by
  decide

/-- C3 amended: the Expired and Malformed/InvalidSignature outcomes are
distinct at the JWT-library layer, but decode_token collapses both to
None, so the value returned to the caller is identical for the two
failure kinds. -/
theorem decode_collapse_amended (secret now : Nat) (t1 t2 : Token)
    (h1 : jwt_decode secret now t1 = JwtResult.expired)
    (h2 : jwt_decode secret now t2 = JwtResult.invalid) :
    JwtResult.expired ≠ JwtResult.invalid
    ∧ decode_token secret now t1 = none
    ∧ decode_token secret now t2 = none := by
  refine ⟨by decide, ?_, ?_⟩
  · simp [decode_token, h1]
  · simp [decode_token, h2]

/-- Witness for the amended C3 at the concrete expired and malformed
tokens of the counterexample. -/
theorem decode_collapse_amended_witness :
    JwtResult.expired ≠ JwtResult.invalid
    ∧ decode_token 5 90000 (generate_token 5 0 24 1 "user") = none
    ∧ decode_token 5 90000 (Token.malformed "xx") = none :=
  decode_collapse_amended 5 90000 (generate_token 5 0 24 1 "user")
    (Token.malformed "xx") (by decide) (by decide)

/-- C10: existence disclosure ordering.  For GET, PUT and DELETE on a
task id with a valid token, the response is 404 exactly when no task
with that id exists, for every caller identity and role; when the task
exists the response is never 404, so the ownership 403 is only reached
for existing tasks. -/
theorem existence_404 (db : Db) (task_id : Nat) (caller : Claim)
    (body : Option TaskBody) :
    (TaskModel.find_by_id db task_id = none →
       (get_task caller task_id db).code = 404
       ∧ (update_task caller task_id body db).fst.code = 404
       ∧ (delete_task caller task_id db).fst.code = 404)
    ∧ (∀ t, TaskModel.find_by_id db task_id = some t →
       (get_task caller task_id db).code ≠ 404
       ∧ (update_task caller task_id body db).fst.code ≠ 404
       ∧ (delete_task caller task_id db).fst.code ≠ 404) := by
  constructor
  · intro h
    simp [get_task, update_task, delete_task, h, errResp]
  · intro t h
    refine ⟨?_, ?_, ?_⟩
    · simp only [get_task, h]
      split <;> simp [errResp]
    · simp only [update_task, h]
      repeat' split
      all_goals simp [errResp]
    · simp only [delete_task, h]
      split <;> simp [errResp]

/-- Witness for C10: a missing id gives 404 to any caller; an existing
task owned by another user gives a non-404 response. -/
theorem existence_404_witness :
    (get_task ⟨9, "user"⟩ 5 ⟨[], 1, 0⟩).code = 404
    ∧ (get_task ⟨9, "user"⟩ 1 ⟨[⟨1, "T", "", "pending", 7, 0⟩], 2, 0⟩).code ≠ 404 := by
  constructor
  · exact ((existence_404 ⟨[], 1, 0⟩ 5 ⟨9, "user"⟩ none).1 (by decide)).1
  · exact ((existence_404 ⟨[⟨1, "T", "", "pending", 7, 0⟩], 2, 0⟩ 1 ⟨9, "user"⟩ none).2
      ⟨1, "T", "", "pending", 7, 0⟩ (by decide)).1

set_option maxRecDepth 100000 in
/-- C4: the update frame fails in the code.  A task is created from the
raw title a & b (stored HTML-escaped as a &amp; b); an owner update
whose body contains only status succeeds with 200, yet the stored title
changes to a &amp;amp; b because the defaulted field is passed through
sanitize_input a second time. -/
theorem update_absent_field_double_escape :
    ((create_task ⟨7, "user"⟩ (some ⟨some "a & b", none, none⟩) ⟨[], 1, 0⟩).snd.tasks.map
        Task.title) = ["a &amp; b"]
    ∧ (update_task ⟨7, "user"⟩ 1 (some ⟨none, none, some "completed"⟩)
        (create_task ⟨7, "user"⟩ (some ⟨some "a & b", none, none⟩) ⟨[], 1, 0⟩).snd).fst.code = 200
    ∧ ((update_task ⟨7, "user"⟩ 1 (some ⟨none, none, some "completed"⟩)
        (create_task ⟨7, "user"⟩ (some ⟨some "a & b", none, none⟩) ⟨[], 1, 0⟩).snd).snd.tasks.map
        Task.title) = ["a &amp;amp; b"] := by
  decide

set_option maxRecDepth 100000 in
/-- C5 counterexample: a title of 51 ampersand characters is non-empty
after trimming and has raw length 51, at most 200 characters, and the
request omits status (so the default pending applies), yet create_task
answers 400: HTML escaping expands the title to 255 characters before
the length check. -/
theorem create_title_length_counterexample :
    pyStrip (List.replicate 51 '&') ≠ []
    ∧ (String.mk (List.replicate 51 '&')).length ≤ 200
    ∧ (create_task ⟨7, "user"⟩ (some ⟨some (String.mk (List.replicate 51 '&')), none, none⟩)
        ⟨[], 1, 0⟩).fst.code = 400 := by
  decide

/-- C5 amended: task-creation validation holds with the title and
status measured after sanitization (trimming and HTML-entity escaping):
a sanitized title that is non-empty and at most 200 characters with a
sanitized status in the enum gives 201 with the new task id; an empty
or over-long sanitized title gives 400; a sanitized status outside the
enum gives 400 with the message listing the valid values. -/
theorem create_task_validation (caller : Claim) (data : TaskBody) (db : Db) :
    (sanitize_input (data.title.getD "") ≠ "" →
     (sanitize_input (data.title.getD "")).length ≤ 200 →
     sanitize_input (data.status.getD "pending") ∈ valid_statuses →
       (create_task caller (some data) db).fst.code = 201
       ∧ (create_task caller (some data) db).fst.task_id = some db.next_id)
    ∧ (sanitize_input (data.title.getD "") = ""
       ∨ (sanitize_input (data.title.getD "")).length > 200 →
       (create_task caller (some data) db).fst.code = 400)
    ∧ (sanitize_input (data.title.getD "") ≠ "" →
       (sanitize_input (data.title.getD "")).length ≤ 200 →
       sanitize_input (data.status.getD "pending") ∉ valid_statuses →
       (create_task caller (some data) db).fst.code = 400
       ∧ (create_task caller (some data) db).fst.error
           = some "Invalid status. Must be one of: pending, in_progress, completed, cancelled") := by
  refine ⟨?_, ?_, ?_⟩
  · intro h1 h2 h3
    have h2' : ¬ ((sanitize_input (data.title.getD "")).length > 200) := Nat.not_lt.mpr h2
    simp [create_task, h1, h2', h3, TaskModel.create, errResp]
  · intro h
    rcases h with h | h
    · simp [create_task, h, errResp]
    · by_cases he : sanitize_input (data.title.getD "") = ""
      · simp [create_task, he, errResp]
      · simp [create_task, he, h, errResp]
  · intro h1 h2 h3
    have h2' : ¬ ((sanitize_input (data.title.getD "")).length > 200) := Nat.not_lt.mpr h2
    simp [create_task, h1, h2', h3, errResp]

/-- Witness for the amended C5: a plain valid request gives 201 with
task id 1, an empty title gives 400, and a bogus status gives 400 with
the enum-listing message. -/
theorem create_task_validation_witness :
    (create_task ⟨7, "user"⟩ (some ⟨some "Buy milk", none, none⟩) ⟨[], 1, 0⟩).fst.code = 201
    ∧ (create_task ⟨7, "user"⟩ (some ⟨some "   ", none, none⟩) ⟨[], 1, 0⟩).fst.code = 400
    ∧ (create_task ⟨7, "user"⟩ (some ⟨some "Buy milk", none, some "bogus"⟩) ⟨[], 1, 0⟩).fst.error
        = some "Invalid status. Must be one of: pending, in_progress, completed, cancelled" := by
  refine ⟨?_, ?_, ?_⟩
  · exact ((create_task_validation ⟨7, "user"⟩ ⟨some "Buy milk", none, none⟩ ⟨[], 1, 0⟩).1
      (by decide) (by decide) (by decide)).1
  · exact (create_task_validation ⟨7, "user"⟩ ⟨some "   ", none, none⟩ ⟨[], 1, 0⟩).2.1
      (Or.inl (by decide))
  · exact ((create_task_validation ⟨7, "user"⟩ ⟨some "Buy milk", none, some "bogus"⟩ ⟨[], 1, 0⟩).2.2
      (by decide) (by decide) (by decide)).2

set_option maxRecDepth 100000 in
/-- C6 counterexample: the status value of the request is the string
with a space around pending, which is not one of the four enumerated
values, yet create_task answers 201 and inserts a row: sanitization
trims the value into the enum before the check. -/
theorem status_trim_counterexample :
    " pending " ∉ valid_statuses
    ∧ (create_task ⟨7, "user"⟩ (some ⟨some "Buy milk", none, some " pending "⟩)
        ⟨[], 1, 0⟩).fst.code = 201
    ∧ (create_task ⟨7, "user"⟩ (some ⟨some "Buy milk", none, some " pending "⟩)
        ⟨[], 1, 0⟩).snd.tasks.length = 1 := by
  decide

/-- C6 amended: status-enum closure with atomicity holds for the status
value after sanitization: when the sanitized status of a create request
is outside the enum the response is 400 and the database is unchanged;
when the sanitized status of an owner update of an existing task is
outside the enum the response is 400 and the database is unchanged. -/
theorem status_enum_atomicity (caller : Claim) (data : TaskBody) (db : Db)
    (task_id : Nat) (task : Task) :
    (sanitize_input (data.status.getD "pending") ∉ valid_statuses →
       (create_task caller (some data) db).fst.code = 400
       ∧ (create_task caller (some data) db).snd = db)
    ∧ (TaskModel.find_by_id db task_id = some task →
       task.user_id = caller.user_id →
       sanitize_input (data.status.getD task.status) ∉ valid_statuses →
       (update_task caller task_id (some data) db).fst.code = 400
       ∧ (update_task caller task_id (some data) db).snd = db) := by
  constructor
  · intro h
    by_cases he : sanitize_input (data.title.getD "") = ""
    · simp [create_task, he, errResp]
    · by_cases hl : (sanitize_input (data.title.getD "")).length > 200
      · simp [create_task, he, hl, errResp]
      · simp [create_task, he, hl, h, errResp]
  · intro hf ho h
    have ho' : ¬ (task.user_id ≠ caller.user_id) := by simp [ho]
    by_cases he : sanitize_input (data.title.getD task.title) = ""
    · simp [update_task, hf, ho', he, errResp]
    · by_cases hl : (sanitize_input (data.title.getD task.title)).length > 200
      · simp [update_task, hf, ho', he, hl, errResp]
      · simp [update_task, hf, ho', he, hl, h, errResp]

/-- Witness for the amended C6: a create request with status bogus is
rejected with 400 leaving the database empty, and an owner update of
task 1 to status bogus is rejected with 400 leaving the row unchanged. -/
theorem status_enum_atomicity_witness :
    (create_task ⟨7, "user"⟩ (some ⟨some "Buy milk", none, some "bogus"⟩) ⟨[], 1, 0⟩).fst.code = 400
    ∧ (create_task ⟨7, "user"⟩ (some ⟨some "Buy milk", none, some "bogus"⟩) ⟨[], 1, 0⟩).snd
        = ⟨[], 1, 0⟩
    ∧ (update_task ⟨7, "user"⟩ 1 (some ⟨none, none, some "bogus"⟩)
        ⟨[⟨1, "T", "", "pending", 7, 0⟩], 2, 0⟩).snd
        = ⟨[⟨1, "T", "", "pending", 7, 0⟩], 2, 0⟩ := by
  refine ⟨?_, ?_, ?_⟩
  · exact ((status_enum_atomicity ⟨7, "user"⟩ ⟨some "Buy milk", none, some "bogus"⟩ ⟨[], 1, 0⟩
      0 ⟨0, "", "", "", 0, 0⟩).1 (by decide)).1
  · exact ((status_enum_atomicity ⟨7, "user"⟩ ⟨some "Buy milk", none, some "bogus"⟩ ⟨[], 1, 0⟩
      0 ⟨0, "", "", "", 0, 0⟩).1 (by decide)).2
  · exact ((status_enum_atomicity ⟨7, "user"⟩ ⟨none, none, some "bogus"⟩
      ⟨[⟨1, "T", "", "pending", 7, 0⟩], 2, 0⟩ 1 ⟨1, "T", "", "pending", 7, 0⟩).2
      (by decide) (by decide) (by decide)).2

/-- Inserting into the sorted task list grows its length by one. -/
theorem length_insertDesc (t : Task) (l : List Task) :
    (insertDesc t l).length = l.length + 1 := by
  induction l with
  | nil => rfl
  | cons u us ih =>
      simp only [insertDesc]
      split
      · simp
      · simp [ih]

/-- Sorting by created_at preserves the number of rows. -/
theorem length_sortByCreatedDesc (l : List Task) :
    (sortByCreatedDesc l).length = l.length := by
  induction l with
  | nil => rfl
  | cons t ts ih => simp [sortByCreatedDesc, length_insertDesc, ih]

/-- C7: pagination arithmetic.  For limit L between 1 and 100 and page
P at least 1, the non-admin task list returns the slice of the user's
sorted tasks at offset (P-1)*L of length min L (T - offset), and the
reported pages value is the ceiling of T / L: it is the least m with
T at most m*L. -/
theorem pagination_arithmetic (caller : Claim) (db : Db) (P L : Nat)
    (hP : 1 ≤ P) (hL1 : 1 ≤ L) (hL2 : L ≤ 100) :
    (get_tasks caller false none (P : Int) (L : Int) db).tasks
      = ((sortByCreatedDesc (db.tasks.filter
          (fun t => t.user_id = caller.user_id && statusMatch none t))).drop ((P - 1) * L)).take L
    ∧ (get_tasks caller false none (P : Int) (L : Int) db).tasks.length
      = min L (TaskModel.count_by_user db caller.user_id none - (P - 1) * L)
    ∧ TaskModel.count_by_user db caller.user_id none
        ≤ (get_tasks caller false none (P : Int) (L : Int) db).pages * L
    ∧ (∀ m : Nat, TaskModel.count_by_user db caller.user_id none ≤ m * L →
        (get_tasks caller false none (P : Int) (L : Int) db).pages ≤ m) := by
  have h0 : 0 < L := hL1
  have hp : ¬ ((P : Int) < 1) := by omega
  have hl : ¬ ((L : Int) < 1 ∨ (L : Int) > 100) := by omega
  have hl2 : ¬ (L = 0 ∨ 100 < L) := by omega
  have hred : get_tasks caller false none (P : Int) (L : Int) db
      = ⟨TaskModel.find_by_user db caller.user_id none L ((P - 1) * L),
         TaskModel.count_by_user db caller.user_id none, P, L,
         (TaskModel.count_by_user db caller.user_id none + L - 1) / L⟩ := by
    simp [get_tasks, hp, hl, hl2]
  set T := TaskModel.count_by_user db caller.user_id none with hT
  refine ⟨?_, ?_, ?_, ?_⟩
  · rw [hred]
    simp [TaskModel.find_by_user]
  · rw [hred]
    simp [TaskModel.find_by_user, TaskModel.count_by_user, length_sortByCreatedDesc, hT,
      List.length_take, List.length_drop]
  · rw [hred]
    rcases Nat.eq_zero_or_pos T with h | h
    · simp [h]
    · have e1 : T + L - 1 = (T - 1) + L := by omega
      simp only [e1, Nat.add_div_right _ h0]
      have h2 : (T - 1) / L < (T - 1) / L + 1 := Nat.lt_succ_self _
      have h3 : T - 1 < ((T - 1) / L + 1) * L := (Nat.div_lt_iff_lt_mul h0).mp h2
      omega
  · rw [hred]
    intro m hm
    rcases Nat.eq_zero_or_pos T with h | h
    · simp [h]
      exact Nat.le_trans (Nat.le_of_eq (Nat.div_eq_of_lt (by omega))) (Nat.zero_le m)
    · have e1 : T + L - 1 = (T - 1) + L := by omega
      simp only [e1, Nat.add_div_right _ h0]
      have h3 : (T - 1) / L < m := (Nat.div_lt_iff_lt_mul h0).mpr (by omega)
      omega

/-- A table of 25 tasks owned by user 7, for the concrete pagination
scenario of the specification. -/
def db25 : Db := ⟨(List.range 25).map (fun i => ⟨i + 1, "t", "", "pending", 7, i⟩), 26, 25⟩

set_option maxRecDepth 100000 in
/-- Witness for C7, the concrete scenario of the specification: 25
tasks with limit 10 and page 3 return 5 tasks and pages 3. -/
theorem pagination_arithmetic_witness :
    (get_tasks ⟨7, "user"⟩ false none 3 10 db25).tasks.length = 5
    ∧ (get_tasks ⟨7, "user"⟩ false none 3 10 db25).pages = 3 := by
  have h := pagination_arithmetic ⟨7, "user"⟩ db25 3 10 (by decide) (by decide) (by decide)
  norm_num at h
  constructor
  · rw [h.2.1]
    decide
  · have h3 := h.2.2.1
    have h4 := h.2.2.2 3 (by decide)
    have h5 : TaskModel.count_by_user db25 7 none = 25 := by decide
    rw [h5] at h3
    omega

/-- C8: bearer-header authentication.  The gate answers 401 exactly
when no verifiable token can be extracted; extraction of a present
header fails exactly when the header is empty, does not split into
exactly two whitespace-separated parts, or its first part is not
bearer case-insensitively; an absent header never yields a token; and
on success the wrapped handler runs with the user_id and role of the
decoded payload. -/
theorem bearer_auth_gate (decode : String → Option Payload)
    (handler : Nat → String → HResp) (auth_header : Option String)
    (hh : ∀ u r, (handler u r).code ≠ 401) :
    ((token_required decode handler auth_header).code = 401 ↔
       ¬ ∃ t p, extractToken auth_header = some t ∧ decode t = some p)
    ∧ (auth_header = none → extractToken auth_header = none)
    ∧ (∀ s, auth_header = some s →
         (extractToken auth_header = none ↔
           s = "" ∨ (splitWs s).length ≠ 2
           ∨ ∃ p0 p1, splitWs s = [p0, p1] ∧ lowerStr p0 ≠ "bearer"))
    ∧ (∀ t p, extractToken auth_header = some t → decode t = some p →
         token_required decode handler auth_header = handler p.user_id p.role) := by
  refine ⟨?_, ?_, ?_, ?_⟩
  · cases he : extractToken auth_header with
    | none => simp [token_required, he]
    | some t =>
        cases hd : decode t with
        | none => simp [token_required, he, hd]
        | some p => simp [token_required, he, hd, hh]
  · intro h
    subst h
    rfl
  · intro s hs
    subst hs
    simp only [extractToken]
    by_cases hse : s = ""
    · simp [hse]
    · cases hsp : splitWs s with
      | nil => rw [if_neg hse]; simp [hse]
      | cons p0 rest =>
        cases rest with
        | nil => rw [if_neg hse]; simp [hse]
        | cons p1 rest2 =>
          cases rest2 with
          | nil =>
              rw [if_neg hse]
              by_cases hb : lowerStr p0 = "bearer"
              · simp [hb, hse]
              · simp [hb, hse]
          | cons p2 rest3 => rw [if_neg hse]; simp [hse]
  · intro t p ht hp
    simp [token_required, ht, hp]

/-- A concrete verifier for the C8 witness: only the token string tok
decodes, to user 1 with role user. -/
def decodeStub : String → Option Payload :=
  fun t => if t = "tok" then some ⟨1, "user", 0, 10⟩ else none

/-- A concrete wrapped handler for the C8 witness, never answering
401. -/
def handlerStub : Nat → String → HResp :=
  fun _ _ => ⟨200, none⟩

/-- Witness for C8: a missing header, a header with the wrong scheme,
and a header with an unverifiable token are all rejected with 401,
while a mixed-case bearer header with the good token reaches the
handler with the decoded identity. -/
theorem bearer_auth_gate_witness :
    (token_required decodeStub handlerStub none).code = 401
    ∧ (token_required decodeStub handlerStub (some "Token tok")).code = 401
    ∧ (token_required decodeStub handlerStub (some "Bearer bad")).code = 401
    ∧ token_required decodeStub handlerStub (some "BeArEr tok") = handlerStub 1 "user" := by
  have hh : ∀ u r, (handlerStub u r).code ≠ 401 := by
    intro u r
    simp [handlerStub]
  refine ⟨?_, ?_, ?_, ?_⟩
  · exact (bearer_auth_gate decodeStub handlerStub none hh).1.mpr
      (by rintro ⟨t, p, h, _⟩; simp [extractToken] at h)
  · exact (bearer_auth_gate decodeStub handlerStub (some "Token tok") hh).1.mpr
      (by
        rintro ⟨t, p, h, _⟩
        rw [show extractToken (some "Token tok") = none by decide] at h
        cases h)
  · exact (bearer_auth_gate decodeStub handlerStub (some "Bearer bad") hh).1.mpr
      (by
        rintro ⟨t, p, h1, h2⟩
        rw [show extractToken (some "Bearer bad") = some "bad" by decide] at h1
        cases h1
        simp [decodeStub] at h2)
  · exact (bearer_auth_gate decodeStub handlerStub (some "BeArEr tok") hh).2.2.2 "tok"
      ⟨1, "user", 0, 10⟩ (by decide) (by decide)

set_option maxRecDepth 400000 in
/-- C9 counterexample: the role value with spaces around admin is
outside the set containing user and admin, yet registration stores the
role admin (not user): sanitization trims the value into the allowed
set before the check. -/
theorem register_role_trim_counterexample :
    " admin " ≠ "user" ∧ " admin " ≠ "admin"
    ∧ (register (fun p => p) (some ⟨some "alice@example.com", some "Passw0rd",
        some "Alice", some " admin "⟩) ⟨[], 1, 0⟩).fst.code = 201
    ∧ (register (fun p => p) (some ⟨some "alice@example.com", some "Passw0rd",
        some "Alice", some " admin "⟩) ⟨[], 1, 0⟩).snd.users.map User.role = ["admin"] := by
  decide

/-- C9 amended: privilege escalation at registration, stated on the
sanitized role.  For any unauthenticated request with valid email,
password and name and a fresh email address: a body whose sanitized
role equals admin creates a user stored with role admin; a body whose
sanitized role is outside the set of user and admin is silently
replaced by user and still answers 201, never a 400 validation
error. -/
theorem register_role_escalation (hashFn : String → String) (db : UserDb)
    (email password name role : String)
    (hvEmail : validate_email (sanitize_input email) = true)
    (hvPass : (validate_password password).fst = true)
    (hname : sanitize_input name ≠ "")
    (hfresh : UserModel.find_by_email db (sanitize_input email) = none) :
    (sanitize_input role = "admin" →
       (register hashFn (some ⟨some email, some password, some name, some role⟩) db).fst.code = 201
       ∧ (register hashFn (some ⟨some email, some password, some name, some role⟩)
            db).snd.users.map User.role = db.users.map User.role ++ ["admin"])
    ∧ (sanitize_input role ∉ ["user", "admin"] →
       (register hashFn (some ⟨some email, some password, some name, some role⟩) db).fst.code = 201
       ∧ (register hashFn (some ⟨some email, some password, some name, some role⟩)
            db).snd.users.map User.role = db.users.map User.role ++ ["user"]) := by
  have hemail : sanitize_input email ≠ "" := by
    intro h
    rw [h] at hvEmail
    simp [validate_email] at hvEmail
  have hpass : password ≠ "" := by
    intro h
    rw [h] at hvPass
    simp [validate_password] at hvPass
  constructor
  · intro hrole
    have hmem : ¬ (sanitize_input role ∉ ["user", "admin"]) := by simp [hrole]
    simp [register, hemail, hpass, hname, hvEmail, hvPass, hfresh, hrole, hmem,
      UserModel.create]
  · intro hrole
    simp [register, hemail, hpass, hname, hvEmail, hvPass, hfresh, hrole,
      UserModel.create]

set_option maxRecDepth 400000 in
/-- Witness for the amended C9: registering with role admin stores an
admin user, and registering with role root stores a user with role
user (201, not 400). -/
theorem register_role_escalation_witness :
    (register (fun p => p) (some ⟨some "alice@example.com", some "Passw0rd",
        some "Alice", some "admin"⟩) ⟨[], 1, 0⟩).snd.users.map User.role = ["admin"]
    ∧ (register (fun p => p) (some ⟨some "bob@example.com", some "Passw0rd",
        some "Bob", some "root"⟩) ⟨[], 1, 0⟩).snd.users.map User.role = ["user"] := by
  constructor
  · exact ((register_role_escalation (fun p => p) ⟨[], 1, 0⟩ "alice@example.com" "Passw0rd"
      "Alice" "admin" (by decide) (by decide) (by decide) (by decide)).1 (by decide)).2
  · exact ((register_role_escalation (fun p => p) ⟨[], 1, 0⟩ "bob@example.com" "Passw0rd"
      "Bob" "root" (by decide) (by decide) (by decide) (by decide)).2 (by decide)).2

end TaskApi
